import Mathlib

/-!
Verification of `scripts/generate_voices_free.py`, a batch utility that
reads personality/dialogue JSON files and synthesizes one audio file per
response, choosing a voice from a static theme/role table.

The Python code is shallowly embedded:
* dictionaries become association lists (`List (String × String)`), with
  Python's `dict.get(k, d)` modelled by `List.lookup` plus `Option.getD`;
* Python's substring test `a in b` becomes `containsSub`, infix search on
  the character lists;
* the filesystem is a list of existing paths; the external TTS call is an
  abstract function returning success or an exception value; `try/except`
  becomes a total function that turns the exception into a log line;
* `asyncio.gather` over a batch followed by the next batch is modelled by
  sequential execution of the batch's items in order (the coroutines here
  are single awaited calls, and batches are awaited one after the other).
-/

namespace GenVoices

/-- Infix search on lists: `needle` occurs as a contiguous block of `hay`. -/
def occursIn (needle hay : List Char) : Bool :=
  match hay with
  | [] => needle.isEmpty
  | _ :: t => needle.isPrefixOf hay || occursIn needle t

/-- Python's substring test `needle in hay` on strings. -/
def containsSub (needle hay : String) : Bool :=
  occursIn needle.toList hay.toList

/-- Python's `str.lower()`, modelled characterwise (ASCII case folding, as
`Char.toLower` provides; all strings the script compares are ASCII). -/
def strLower (s : String) : String :=
  ⟨s.data.map Char.toLower⟩

/-- The `THEME_MAPPING` table: theme key → (role → voice) association
table, transcribed from the script. -/
def THEME_MAPPING : List (String × List (String × String)) :=
  [ ("default",
      [ ("king", "en-GB-RyanNeural"),
        ("queen", "en-GB-SoniaNeural"),
        ("rook", "en-US-ChristopherNeural"),
        ("bishop", "en-GB-ThomasNeural"),
        ("knight", "en-US-GuyNeural"),
        ("pawn", "en-US-AnaNeural") ]),
    ("italian",
      [ ("default", "it-IT-DiegoNeural"),
        ("queen", "it-IT-ElsaNeural") ]),
    ("french",
      [ ("default", "fr-FR-HenriNeural"),
        ("queen", "fr-FR-DeniseNeural") ]),
    ("sicilian",
      [ ("default", "it-IT-IsabellaNeural"),
        ("bishop", "it-IT-DiegoNeural") ]),
    ("royal",
      [ ("default", "en-GB-RyanNeural"),
        ("bishop", "en-IE-ConnorNeural") ]),
    ("russian",
      [ ("default", "ru-RU-DmitryNeural"),
        ("queen", "ru-RU-SvetlanaNeural") ]) ]

/-- The global default map, `DEFAULT_MAPPING = THEME_MAPPING['default']`. -/
def DEFAULT_MAPPING : List (String × String) :=
  [ ("king", "en-GB-RyanNeural"),
    ("queen", "en-GB-SoniaNeural"),
    ("rook", "en-US-ChristopherNeural"),
    ("bishop", "en-GB-ThomasNeural"),
    ("knight", "en-US-GuyNeural"),
    ("pawn", "en-US-AnaNeural") ]

/-- Role inference from the response id (first block of
`get_voice_for_personality`). -/
def roleOf (response_id : String) : String :=
  if containsSub "king" response_id then "king"
  else if containsSub "queen" response_id then "queen"
  else if containsSub "rook" response_id then "rook"
  else if containsSub "bishop" response_id then "bishop"
  else if containsSub "knight" response_id then "knight"
  else "pawn"

/-- Theme-key inference from the personality name and theme (second block
of `get_voice_for_personality`); both inputs are lowercased first. -/
def themeKeyOf (personality_name personality_theme : String) : String :=
  let p_name := strLower personality_name
  let p_theme := strLower personality_theme
  if containsSub "italian" p_name || containsSub "italian" p_theme then "italian"
  else if containsSub "french" p_name || containsSub "french" p_theme then "french"
  else if containsSub "sicilian" p_name || containsSub "sicilian" p_theme then "sicilian"
  else if containsSub "cleric" p_name || containsSub "royal" p_theme then "royal"
  else if containsSub "russian" p_name || containsSub "russian" p_theme then "russian"
  else "default"

/-- The function `get_voice_for_personality`: lookup with the `.get`
fallback chain of the script. -/
def get_voice_for_personality
    (personality_name personality_theme response_id : String) : String :=
  let role := roleOf response_id
  let theme_key := themeKeyOf personality_name personality_theme
  let theme_voices := (THEME_MAPPING.lookup theme_key).getD DEFAULT_MAPPING
  (theme_voices.lookup role).getD
    ((theme_voices.lookup "default").getD
      ((DEFAULT_MAPPING.lookup role).getD "en-US-AriaNeural"))

/-- Spec-side priority matcher: the first `(substring, result)` pair whose
substring occurs in `s` determines the result; if none occurs, `dflt`. -/
def firstMatch (checks : List (String × String)) (dflt s : String) : String :=
  match checks with
  | [] => dflt
  | (sub, r) :: rest => if containsSub sub s then r else firstMatch rest dflt s

/-- The fixed role priority list of the spec. -/
def roleChecks : List (String × String) :=
  [ ("king", "king"), ("queen", "queen"), ("rook", "rook"),
    ("bishop", "bishop"), ("knight", "knight") ]

/-- Spec-side theme matcher: each entry tests one substring against the
(lowercased) name and one against the (lowercased) theme; first hit wins. -/
def firstThemeMatch (checks : List ((String × String) × String))
    (dflt nm th : String) : String :=
  match checks with
  | [] => dflt
  | ((ns, ts), k) :: rest =>
    if containsSub ns nm || containsSub ts th then k
    else firstThemeMatch rest dflt nm th

/-- The fixed theme priority list of the spec: italian, french, sicilian,
royal (cleric in the name / royal in the theme), russian. -/
def themeChecks : List ((String × String) × String) :=
  [ (("italian", "italian"), "italian"),
    (("french", "french"), "french"),
    (("sicilian", "sicilian"), "sicilian"),
    (("cleric", "royal"), "royal"),
    (("russian", "russian"), "russian") ]

/-- Spec-side voice resolution, following the spec's words: the theme map's
entry for the role if present, else the theme map's `default` entry if
present, else the global default map's entry for the role, else the
hardcoded literal. -/
def voiceSpec (personality_name personality_theme response_id : String) : String :=
  let role := roleOf response_id
  let tk := themeKeyOf personality_name personality_theme
  let m := THEME_MAPPING.lookup tk
  match m.bind (fun tv => tv.lookup role) with
  | some v => v
  | none =>
    match m.bind (fun tv => tv.lookup "default") with
    | some v => v
    | none =>
      match DEFAULT_MAPPING.lookup role with
      | some v => v
      | none => "en-US-AriaNeural"

/-- Every value of the `THEME_MAPPING` table. -/
def tableVoices : List String :=
  THEME_MAPPING.flatMap (fun p => p.2.map Prod.snd)

/-- The input root, `PERSONALITY_PATH`, relative to the working directory
(the `os.getcwd()` prefix is common to every path and omitted). -/
def PERSONALITY_PATH : String := "public/personalities/standard"

/-- The output directory, `OUTPUT_DIR = os.path.join(PERSONALITY_PATH, 'audio')`. -/
def OUTPUT_DIR : String := PERSONALITY_PATH ++ "/audio"

/-- The input directory, `white_dir = os.path.join(PERSONALITY_PATH, 'white')`
from `main`. -/
def white_dir : String := PERSONALITY_PATH ++ "/white"

/-- The output path of a response id: `OUTPUT_DIR` joined with
`response_id` followed by `.mp3`. -/
def outputFile (response_id : String) : String :=
  OUTPUT_DIR ++ "/" ++ response_id ++ ".mp3"

/-- Outcome of one external `edge_tts` synthesis call: success, or a raised
exception carrying a message. -/
inductive SynthResult where
  | ok
  | err (msg : String)
deriving DecidableEq

/-- One generation task as built by `process_personality_file`:
the (substituted) text, the response id and the resolved voice. -/
structure GenTask where
  text : String
  rid : String
  voice : String
deriving DecidableEq

/-- Observable outcome of one `generate_audio` call: the filesystem after
the call, whether the synthesis call was attempted, and the printed lines. -/
structure GenResult where
  fs : List String
  synthCalled : Bool
  log : List String
deriving DecidableEq

/-- The function `generate_audio`: skip when the output file exists;
otherwise attempt synthesis, writing the file on success; an exception
from the call is caught and turned into a log line (the function always
returns). The filesystem is the list of existing paths; `synth` gives the
outcome of the external call on (text, voice). -/
def generate_audio (synth : String → String → SynthResult)
    (t : GenTask) (fs : List String) : GenResult :=
  let output_file := outputFile t.rid
  if fs.contains output_file then
    { fs := fs, synthCalled := false,
      log := ["Skipping " ++ t.rid ++ " (already exists)"] }
  else
    match synth t.text t.voice with
    | SynthResult.ok =>
      { fs := output_file :: fs, synthCalled := true,
        log := ["Generating " ++ t.rid ++ " with voice " ++ t.voice ++ "..."] }
    | SynthResult.err e =>
      { fs := fs, synthCalled := true,
        log := ["Generating " ++ t.rid ++ " with voice " ++ t.voice ++ "...",
                "Failed to generate " ++ t.rid ++ ": " ++ e] }

/-- Run a list of tasks in order, threading the filesystem; returns the
final filesystem and the ids processed, in order. -/
def runTasks (synth : String → String → SynthResult) :
    List GenTask → List String → List String × List String
  | [], fs => (fs, [])
  | t :: rest, fs =>
    let r := generate_audio synth t fs
    let r2 := runTasks synth rest r.fs
    (r2.1, t.rid :: r2.2)

/-- Run batches one after the other (each batch is awaited to completion
before the next is started). -/
def runBatches (synth : String → String → SynthResult) :
    List (List GenTask) → List String → List String × List String
  | [], fs => (fs, [])
  | b :: rest, fs =>
    let r := runTasks synth b fs
    let r2 := runBatches synth rest r.1
    (r2.1, r.2 ++ r2.2)

/-- Python's `range(start, stop, step)` for positive `step`, in closed
form: `start, start+step, ...` while below `stop`. -/
def pyRange (start stop step : Nat) : List Nat :=
  (List.range ((stop - start + step - 1) / step)).map (fun j => start + j * step)

/-- The batch split of `process_personality_file`:
`for i in range(0, len(tasks), batch_size): batch = tasks[i:i+batch_size]`. -/
def batches (l : List α) (n : Nat) : List (List α) :=
  (pyRange 0 l.length n).map (fun i => (l.drop i).take n)

/-- Left-to-right, non-overlapping replacement of `pat` by `rep` in a
character list, as Python's `str.replace` performs it for a non-empty
pattern; `fuel` (instantiated with the list length) only makes the
recursion structural and never runs out. -/
def replaceAux (pat rep : List Char) : Nat → List Char → List Char
  | _, [] => []
  | 0, s => s
  | Nat.succ fuel, c :: rest =>
    if pat.isEmpty = false ∧ pat.isPrefixOf (c :: rest) = true then
      rep ++ replaceAux pat rep fuel ((c :: rest).drop pat.length)
    else
      c :: replaceAux pat rep fuel rest

/-- Python's `s.replace(pat, rep)` for a non-empty pattern. -/
def pyReplace (s pat rep : String) : String :=
  ⟨replaceAux pat.toList rep.toList s.toList.length s.toList⟩

/-- One entry of a personality's `responses` array; `id` and `text` are
optional keys, as the script checks their presence. -/
structure RespJson where
  rid : Option String
  text : Option String
deriving DecidableEq

/-- One entry of the `personalities` array. -/
structure Personality where
  name : Option String
  theme : Option String
  responses : Option (List RespJson)
deriving DecidableEq

/-- The parsed content of one personality JSON file. -/
structure PFile where
  personalities : Option (List Personality)
deriving DecidableEq

/-- The task list built by `process_personality_file` from one file's
content: for every response carrying both `text` and `id`, the placeholder
`{capturedPiece}` is replaced by `piece` and the voice resolved; responses
missing either key are skipped. -/
def process_personality_file (content : PFile) : List GenTask :=
  (content.personalities.getD []).flatMap (fun p =>
    let p_name := p.name.getD "default"
    let p_theme := p.theme.getD "default"
    (p.responses.getD []).filterMap (fun r =>
      match r.text, r.rid with
      | some text, some rid =>
        some { text := pyReplace text "{capturedPiece}" "piece",
               rid := rid,
               voice := get_voice_for_personality p_name p_theme rid }
      | _, _ => none))

/-- Python's `f.endswith(suffix)`. -/
def strEndsWith (suffix f : String) : Bool :=
  suffix.toList.reverse.isPrefixOf f.toList.reverse

/-- The I/O environment `main` runs against: which paths exist, directory
listings, and the parsed JSON of each file. -/
structure Env where
  pathExists : String → Bool
  listdir : String → List String
  readJson : String → PFile

/-- The externally visible steps `main` can take. -/
inductive Action where
  | makedirs (p : String)
  | reportMissing (p : String)
  | readFile (p : String)
  | runTask (t : GenTask)
deriving DecidableEq

/-- The function `main`, as the sequence of actions it performs: ensure
the output directory, then either report the missing `white` directory and
stop, or read every `.json` file of it and run the tasks it yields. -/
def mainActions (env : Env) : List Action :=
  (if env.pathExists OUTPUT_DIR then [] else [Action.makedirs OUTPUT_DIR]) ++
    (if env.pathExists white_dir = false then
      [Action.reportMissing white_dir]
    else
      ((env.listdir white_dir).filter (fun f => strEndsWith ".json" f)).flatMap
        (fun f =>
          Action.readFile (white_dir ++ "/" ++ f) ::
            (process_personality_file (env.readJson (white_dir ++ "/" ++ f))).map
              Action.runTask))

lemma roleOf_mem (response_id : String) :
    roleOf response_id = "king" ∨ roleOf response_id = "queen" ∨
    roleOf response_id = "rook" ∨ roleOf response_id = "bishop" ∨
    roleOf response_id = "knight" ∨ roleOf response_id = "pawn" := by
  unfold roleOf
  repeat' split
  all_goals tauto

lemma themeKeyOf_mem (nm th : String) :
    themeKeyOf nm th = "italian" ∨ themeKeyOf nm th = "french" ∨
    themeKeyOf nm th = "sicilian" ∨ themeKeyOf nm th = "royal" ∨
    themeKeyOf nm th = "russian" ∨ themeKeyOf nm th = "default" := by
  simp only [themeKeyOf]
  repeat' split
  all_goals tauto

lemma cnt_succ (len n : Nat) (hn : 0 < n) (hlen : 0 < len) :
    (len + n - 1) / n = (len - n + n - 1) / n + 1 := by
  rcases le_or_lt n len with h | h
  · have h1 : len + n - 1 = (len - n + n - 1) + n := by omega
    rw [h1, Nat.add_div_right _ hn]
  · have h1 : len - n = 0 := by omega
    have h2 : len + n - 1 = (len - 1) + n := by omega
    rw [h1, h2, Nat.add_div_right _ hn]
    have h3 : (len - 1) / n = 0 := Nat.div_eq_of_lt (by omega)
    have h4 : (0 + n - 1) / n = 0 := Nat.div_eq_of_lt (by omega)
    rw [h3, h4]

lemma batches_nil (n : Nat) (hn : 0 < n) : batches ([] : List α) n = [] := by
  unfold batches pyRange
  have h : (n - 1) / n = 0 := Nat.div_eq_of_lt (by omega)
  simp [h]

lemma batches_cons (l : List α) (n : Nat) (hn : 0 < n) (hne : l ≠ []) :
    batches l n = l.take n :: batches (l.drop n) n := by
  have hlen : 0 < l.length := List.length_pos.mpr hne
  unfold batches pyRange
  simp only [Nat.sub_zero]
  rw [List.length_drop, cnt_succ l.length n hn hlen, List.range_succ_eq_map]
  simp only [List.map_cons, List.map_map, Nat.zero_add, Nat.zero_mul,
    List.drop_zero]
  congr 1
  refine List.map_congr_left ?_
  intro j hj
  simp [Nat.succ_mul, List.drop_drop, Nat.add_comm]

lemma batches_join (l : List α) (n : Nat) (hn : 0 < n) :
    (batches l n).flatten = l := by
  by_cases hne : l = []
  · subst hne
    rw [batches_nil n hn]
    rfl
  · rw [batches_cons l n hn hne]
    rw [List.flatten_cons, batches_join (l.drop n) n hn]
    exact List.take_append_drop n l
termination_by l.length
decreasing_by
  simp only [List.length_drop]
  have := List.length_pos.mpr hne
  omega

lemma batches_len_le (l : List α) (n : Nat) :
    ∀ b ∈ batches l n, b.length ≤ n := by
  intro b hb
  obtain ⟨i, _, rfl⟩ := List.mem_map.mp hb
  simp [List.length_take]

lemma batches_dropLast_len (l : List α) (n : Nat) (hn : 0 < n) :
    ∀ b ∈ (batches l n).dropLast, b.length = n := by
  by_cases hne : l = []
  · subst hne
    rw [batches_nil n hn]
    intro b hb
    simp at hb
  · rw [batches_cons l n hn hne]
    by_cases hd : l.drop n = []
    · rw [hd, batches_nil n hn]
      intro b hb
      simp at hb
    · have hbc := batches_cons (l.drop n) n hn hd
      rw [hbc, List.dropLast_cons₂, ← hbc]
      intro b hb
      rcases List.mem_cons.mp hb with rfl | hb2
      · have hlt : n < l.length := by
          by_contra hc
          push_neg at hc
          exact hd (List.drop_eq_nil_of_le hc)
        simp [List.length_take]
        omega
      · exact batches_dropLast_len (l.drop n) n hn b hb2
termination_by l.length
decreasing_by
  simp only [List.length_drop]
  have := List.length_pos.mpr hne
  omega

lemma runTasks_append (synth : String → String → SynthResult)
    (l1 l2 : List GenTask) (fs : List String) :
    runTasks synth (l1 ++ l2) fs =
      ((runTasks synth l2 (runTasks synth l1 fs).1).1,
        (runTasks synth l1 fs).2 ++ (runTasks synth l2 (runTasks synth l1 fs).1).2) := by
  induction l1 generalizing fs with
  | nil => simp [runTasks]
  | cons t rest ih => simp [runTasks, ih]

lemma runBatches_eq_runTasks (synth : String → String → SynthResult)
    (bs : List (List GenTask)) (fs : List String) :
    runBatches synth bs fs = runTasks synth bs.flatten fs := by
  induction bs generalizing fs with
  | nil => simp [runBatches, runTasks]
  | cons b rest ih => simp [runBatches, List.flatten_cons, runTasks_append, ih]

lemma runTasks_processed (synth : String → String → SynthResult)
    (tasks : List GenTask) (fs : List String) :
    (runTasks synth tasks fs).2 = tasks.map GenTask.rid := by
  induction tasks generalizing fs with
  | nil => rfl
  | cons t rest ih => simp [runTasks, ih]

/-- C1: for every personality name, theme string and response id, the voice
resolver returns the theme map's entry for the role if present, otherwise
the theme map's `default` entry if present, otherwise the global default
map's entry for the role, otherwise the literal `en-US-AriaNeural`; it is a
total function on all string inputs (so no error is ever raised). -/
theorem get_voice_matches_fallback_chain
    (personality_name personality_theme response_id : String) :
    get_voice_for_personality personality_name personality_theme response_id =
      voiceSpec personality_name personality_theme response_id := by
  rcases roleOf_mem response_id with hr | hr | hr | hr | hr | hr <;>
    rcases themeKeyOf_mem personality_name personality_theme with
      ht | ht | ht | ht | ht | ht <;>
    simp [get_voice_for_personality, voiceSpec, hr, ht] <;> decide

/-- Witness for C1 at concrete inputs. -/
theorem get_voice_matches_fallback_chain_witness :
    get_voice_for_personality "The Italian" "opera" "queen_taken" =
      voiceSpec "The Italian" "opera" "queen_taken" :=
  get_voice_matches_fallback_chain "The Italian" "opera" "queen_taken"

/-- C2: role inference is exactly the priority matcher over the fixed list
king, queen, rook, bishop, knight, defaulting to pawn. -/
theorem roleOf_is_priority_match (response_id : String) :
    roleOf response_id = firstMatch roleChecks "pawn" response_id := by
  simp [roleOf, firstMatch, roleChecks]

/-- Witness for C2 at a concrete id. -/
theorem roleOf_is_priority_match_witness :
    roleOf "rook_lift" = firstMatch roleChecks "pawn" "rook_lift" :=
  roleOf_is_priority_match "rook_lift"

/-- C3: theme-key inference is exactly the priority matcher over the fixed
list italian, french, sicilian, royal/cleric, russian applied to the
lowercased name and theme, defaulting to `default`. -/
theorem themeKeyOf_is_priority_match (personality_name personality_theme : String) :
    themeKeyOf personality_name personality_theme =
      firstThemeMatch themeChecks "default"
        (strLower personality_name) (strLower personality_theme) := by
  simp [themeKeyOf, firstThemeMatch, themeChecks]

/-- Witness for C3 at concrete inputs. -/
theorem themeKeyOf_is_priority_match_witness :
    themeKeyOf "Cleric" "royal court" =
      firstThemeMatch themeChecks "default"
        (strLower "Cleric") (strLower "royal court") :=
  themeKeyOf_is_priority_match "Cleric" "royal court"

/-- C9: the resolved voice always comes from the static table, and the
hardcoded fallback `en-US-AriaNeural` is unreachable. -/
theorem get_voice_mem_table
    (personality_name personality_theme response_id : String) :
    get_voice_for_personality personality_name personality_theme response_id
        ∈ tableVoices ∧
      get_voice_for_personality personality_name personality_theme response_id
        ≠ "en-US-AriaNeural" := by
  rcases roleOf_mem response_id with hr | hr | hr | hr | hr | hr <;>
    rcases themeKeyOf_mem personality_name personality_theme with
      ht | ht | ht | ht | ht | ht <;>
    simp only [get_voice_for_personality, hr, ht] <;> decide

/-- Witness for C9 at concrete inputs. -/
theorem get_voice_mem_table_witness :
    get_voice_for_personality "x" "y" "greeting" ∈ tableVoices ∧
      get_voice_for_personality "x" "y" "greeting" ≠ "en-US-AriaNeural" :=
  get_voice_mem_table "x" "y" "greeting"

/-- C10: role inference is case-sensitive (the id `King` yields `pawn`
while `king` yields `king`), whereas theme inference is case-insensitive:
inputs agreeing after lowercasing yield the same theme key. -/
theorem role_case_sensitive_theme_insensitive
    (nm th nm' th' : String)
    (hn : strLower nm = strLower nm') (ht : strLower th = strLower th') :
    roleOf "King" = "pawn" ∧ roleOf "king" = "king" ∧
      themeKeyOf nm th = themeKeyOf nm' th' := by
  refine ⟨by decide, by decide, ?_⟩
  simp [themeKeyOf, hn, ht]

/-- Witness for C10 at concrete inputs. -/
theorem role_case_sensitive_theme_insensitive_witness :
    strLower "Italian" = strLower "italian" ∧ strLower "Royal" = strLower "royal" ∧
      (roleOf "King" = "pawn" ∧ roleOf "king" = "king" ∧
        themeKeyOf "Italian" "Royal" = themeKeyOf "italian" "royal") :=
  ⟨by decide, by decide,
    role_case_sensitive_theme_insensitive "Italian" "Royal" "italian" "royal"
      (by decide) (by decide)⟩

/-- C4: when the output file for the response id already exists,
`generate_audio` makes no synthesis call, leaves the filesystem unchanged,
and only logs the skip — so re-running generation for an already-generated
id is a no-op (and the function takes no forced-refresh input). -/
theorem generate_audio_skips_existing (synth : String → String → SynthResult)
    (t : GenTask) (fs : List String)
    (h : fs.contains (outputFile t.rid) = true) :
    (generate_audio synth t fs).fs = fs ∧
      (generate_audio synth t fs).synthCalled = false ∧
      (generate_audio synth t fs).log =
        ["Skipping " ++ t.rid ++ " (already exists)"] := by
  have h2 : outputFile t.rid ∈ fs := by simpa using h
  simp [generate_audio, h2]

/-- Witness for C4 at a concrete filesystem already holding the output. -/
theorem generate_audio_skips_existing_witness :
    [outputFile "greet"].contains (outputFile "greet") = true ∧
      ((generate_audio (fun _ _ => SynthResult.ok)
          ⟨"hello", "greet", "en-US-AnaNeural"⟩ [outputFile "greet"]).fs =
          [outputFile "greet"] ∧
        (generate_audio (fun _ _ => SynthResult.ok)
            ⟨"hello", "greet", "en-US-AnaNeural"⟩ [outputFile "greet"]).synthCalled =
          false ∧
        (generate_audio (fun _ _ => SynthResult.ok)
            ⟨"hello", "greet", "en-US-AnaNeural"⟩ [outputFile "greet"]).log =
          ["Skipping " ++ "greet" ++ " (already exists)"]) :=
  ⟨by decide,
    generate_audio_skips_existing (fun _ _ => SynthResult.ok)
      ⟨"hello", "greet", "en-US-AnaNeural"⟩ [outputFile "greet"] (by decide)⟩

/-- C5: a synthesis exception is caught inside that item's
`generate_audio` call — the call still returns, logging the failure and
writing nothing — and for every outcome function `synth` (in particular
one raising on some items) every task of every batch is still processed,
in order. -/
theorem synth_failure_caught_batches_continue
    (synth : String → String → SynthResult) (tasks : List GenTask)
    (fs fs1 : List String) (t : GenTask) (e : String)
    (herr : synth t.text t.voice = SynthResult.err e)
    (hnew : fs1.contains (outputFile t.rid) = false) :
    (generate_audio synth t fs1).log =
        ["Generating " ++ t.rid ++ " with voice " ++ t.voice ++ "...",
          "Failed to generate " ++ t.rid ++ ": " ++ e] ∧
      (generate_audio synth t fs1).fs = fs1 ∧
      (runBatches synth (batches tasks 5) fs).2 = tasks.map GenTask.rid := by
  have h2 : outputFile t.rid ∉ fs1 := by simpa using hnew
  refine ⟨?_, ?_, ?_⟩
  · simp [generate_audio, h2, herr]
  · simp [generate_audio, h2, herr]
  · rw [runBatches_eq_runTasks, batches_join tasks 5 (by omega),
      runTasks_processed]

/-- Witness for C5: a synthesis function that always raises still lets the
whole two-element batch run. -/
theorem synth_failure_caught_batches_continue_witness :
    (fun _ _ => SynthResult.err "boom") "hi" "v" = SynthResult.err "boom" ∧
      ([] : List String).contains (outputFile "king_intro") = false ∧
      ((generate_audio (fun _ _ => SynthResult.err "boom")
            ⟨"hi", "king_intro", "v"⟩ []).log =
          ["Generating " ++ "king_intro" ++ " with voice " ++ "v" ++ "...",
            "Failed to generate " ++ "king_intro" ++ ": " ++ "boom"] ∧
        (generate_audio (fun _ _ => SynthResult.err "boom")
            ⟨"hi", "king_intro", "v"⟩ []).fs = [] ∧
        (runBatches (fun _ _ => SynthResult.err "boom")
            (batches [⟨"hi", "king_intro", "v"⟩, ⟨"yo", "pawn_x", "w"⟩] 5) []).2 =
          [⟨"hi", "king_intro", "v"⟩, (⟨"yo", "pawn_x", "w"⟩ : GenTask)].map
            GenTask.rid) :=
  ⟨rfl, by decide,
    synth_failure_caught_batches_continue (fun _ _ => SynthResult.err "boom")
      [⟨"hi", "king_intro", "v"⟩, ⟨"yo", "pawn_x", "w"⟩] [] []
      ⟨"hi", "king_intro", "v"⟩ "boom" rfl (by decide)⟩

/-- C7: the driver splits the task list into consecutive slices of size 5
(the last possibly smaller): concatenating the batches in order gives back
the task list, every batch has at most 5 tasks, every batch but the last
has exactly 5, and running the batches one after the other is the same as
running the tasks in their original order. -/
theorem batches_partition_five (tasks : List GenTask) :
    (batches tasks 5).flatten = tasks ∧
      (∀ b ∈ batches tasks 5, b.length ≤ 5) ∧
      (∀ b ∈ (batches tasks 5).dropLast, b.length = 5) ∧
      ∀ (synth : String → String → SynthResult) (fs : List String),
        runBatches synth (batches tasks 5) fs = runTasks synth tasks fs := by
  refine ⟨batches_join tasks 5 (by omega), batches_len_le tasks 5,
    batches_dropLast_len tasks 5 (by omega), ?_⟩
  intro synth fs
  rw [runBatches_eq_runTasks, batches_join tasks 5 (by omega)]

/-- Witness for C7: the partition property instantiated on a concrete
six-task list. -/
theorem batches_partition_five_witness :
    (batches [GenTask.mk "a" "id1" "v", GenTask.mk "b" "id2" "v",
      GenTask.mk "c" "id3" "v", GenTask.mk "d" "id4" "v",
      GenTask.mk "e" "id5" "v", GenTask.mk "f" "id6" "v"] 5).flatten =
      [GenTask.mk "a" "id1" "v", GenTask.mk "b" "id2" "v",
        GenTask.mk "c" "id3" "v", GenTask.mk "d" "id4" "v",
        GenTask.mk "e" "id5" "v", GenTask.mk "f" "id6" "v"] :=
  (batches_partition_five [GenTask.mk "a" "id1" "v", GenTask.mk "b" "id2" "v",
    GenTask.mk "c" "id3" "v", GenTask.mk "d" "id4" "v",
    GenTask.mk "e" "id5" "v", GenTask.mk "f" "id6" "v"]).1

/-- C8: every task handed to the audio generator comes from a response of
the file, carries that response's id, and its text is exactly the
response's text with every `{capturedPiece}` placeholder replaced by the
literal word `piece` (and its voice is the resolved one). -/
theorem task_text_is_substituted (content : PFile) (t : GenTask)
    (ht : t ∈ process_personality_file content) :
    ∃ p ∈ content.personalities.getD [], ∃ r ∈ p.responses.getD [],
      r.rid = some t.rid ∧
        ∃ s, r.text = some s ∧
          t.text = pyReplace s "\x7bcapturedPiece\x7d" "piece" ∧
            t.voice = get_voice_for_personality (p.name.getD "default")
              (p.theme.getD "default") t.rid := by
  obtain ⟨p, hp, ht2⟩ := List.mem_flatMap.mp ht
  obtain ⟨r, hr, hmk⟩ := List.mem_filterMap.mp ht2
  refine ⟨p, hp, r, hr, ?_⟩
  rcases hx : r.text with _ | s <;> rcases hy : r.rid with _ | rid <;>
    rw [hx, hy] at hmk <;> simp at hmk
  subst hmk
  exact ⟨rfl, s, rfl, rfl, rfl⟩

/-- Witness for C8 on a one-personality, one-response file. -/
theorem task_text_is_substituted_witness :
    (GenTask.mk "I took your piece!" "queen_capture" "it-IT-ElsaNeural" ∈
        process_personality_file
          ⟨some [⟨some "The Italian", some "opera",
            some [⟨some "queen_capture",
              some "I took your \x7bcapturedPiece\x7d!"⟩]⟩]⟩) ∧
      ∃ p ∈ (PFile.mk (some [⟨some "The Italian", some "opera",
            some [⟨some "queen_capture",
              some "I took your \x7bcapturedPiece\x7d!"⟩]⟩])).personalities.getD [],
        ∃ r ∈ p.responses.getD [],
          r.rid = some (GenTask.mk "I took your piece!" "queen_capture"
              "it-IT-ElsaNeural").rid ∧
            ∃ s, r.text = some s ∧
              (GenTask.mk "I took your piece!" "queen_capture"
                  "it-IT-ElsaNeural").text =
                pyReplace s "\x7bcapturedPiece\x7d" "piece" ∧
                (GenTask.mk "I took your piece!" "queen_capture"
                    "it-IT-ElsaNeural").voice =
                  get_voice_for_personality (p.name.getD "default")
                    (p.theme.getD "default")
                    (GenTask.mk "I took your piece!" "queen_capture"
                      "it-IT-ElsaNeural").rid :=
  ⟨by decide,
    task_text_is_substituted
      ⟨some [⟨some "The Italian", some "opera",
        some [⟨some "queen_capture",
          some "I took your \x7bcapturedPiece\x7d!"⟩]⟩]⟩
      (GenTask.mk "I took your piece!" "queen_capture" "it-IT-ElsaNeural")
      (by decide)⟩

/-- C6: when the `white` input directory does not exist, `main` reports it
and stops: the run contains the report, reads no personality file and
creates or executes no generation task. -/
theorem missing_dir_aborts (env : Env)
    (h : env.pathExists white_dir = false) :
    Action.reportMissing white_dir ∈ mainActions env ∧
      ∀ a ∈ mainActions env,
        (∀ p, a ≠ Action.readFile p) ∧ ∀ t, a ≠ Action.runTask t := by
  unfold mainActions
  rw [h]
  by_cases hout : env.pathExists OUTPUT_DIR <;>
    simp [hout]

/-- Witness for C6 in an environment with no paths at all. -/
theorem missing_dir_aborts_witness :
    (Env.mk (fun _ => false) (fun _ => []) (fun _ => ⟨none⟩)).pathExists
        white_dir = false ∧
      (Action.reportMissing white_dir ∈
          mainActions (Env.mk (fun _ => false) (fun _ => []) (fun _ => ⟨none⟩)) ∧
        ∀ a ∈ mainActions (Env.mk (fun _ => false) (fun _ => []) (fun _ => ⟨none⟩)),
          (∀ p, a ≠ Action.readFile p) ∧ ∀ t, a ≠ Action.runTask t) :=
  ⟨rfl, missing_dir_aborts (Env.mk (fun _ => false) (fun _ => []) (fun _ => ⟨none⟩)) rfl⟩

end GenVoices
